import Mathlib

/-!
Verification of the Reolink entity base classes
(`homeassistant/components/reolink/entity.py`).

The file shallowly embeds the data model and the observable behaviour of the
entity classes: device-identity derivation (`DeviceInfo` records), unique-id
derivation, the `available` property, and the update-command subscription
calls issued by the `async_added_to_hass` / `async_will_remove_from_hass`
lifecycle hooks.  Lifecycle hooks are embedded as pure functions returning the
list of register/unregister calls they issue against the device handle, in
order.
-/

/-- The fields of the `reolink_aio` `Host` API object that `entity.py` reads.
Per-channel accessors (`camera_name`, `camera_model`, `camera_sw_version`)
are functions of the channel index. -/
structure ReolinkApi where
  use_https : Bool
  host : String
  port : Nat
  mac_address : String
  nvr_name : String
  model : String
  manufacturer : String
  hardware_version : String
  sw_version : String
  uid : String
  session_active : Bool
  is_nvr : Bool
  camera_name : Nat → String
  camera_model : Nat → String
  camera_sw_version : Nat → String

/-- The fields of the integration's host wrapper (`reolink_data.host`) that
`entity.py` reads: the underlying API object and the stable unique id. -/
structure ReolinkHost where
  api : ReolinkApi
  unique_id : String

/-- The integration domain string (`DOMAIN` from `.const`).  No claim depends
on its concrete value. -/
def DOMAIN : String := "reolink"

/-- `CONNECTION_NETWORK_MAC` from `homeassistant.helpers.device_registry`. -/
def CONNECTION_NETWORK_MAC : String := "mac"

/-- Embedding of the Home Assistant `DeviceInfo` record, restricted to the
keys `entity.py` sets.  Keys that one of the two construction sites omits are
embedded with an "absent" default: `[]` for the `connections` set, `none` for
`via_device`, `hw_version` and `serial_number`. -/
structure DeviceInfo where
  identifiers : List (String × String)
  connections : List (String × String) := []
  via_device : Option (String × String) := none
  name : String
  model : String
  manufacturer : String
  hw_version : Option String := none
  sw_version : String
  serial_number : Option String := none
  configuration_url : String

/-- The `supported` default for channel descriptions takes the API object and
a channel index.  `key` is the field inherited from `EntityDescription`. -/
structure ReolinkChannelEntityDescription where
  key : String
  cmd_key : Option String := none
  supported : ReolinkApi → Nat → Bool := fun _ _ => true

/-- Host entity description: `supported` takes only the API object. -/
structure ReolinkHostEntityDescription where
  key : String
  cmd_key : Option String := none
  supported : ReolinkApi → Bool := fun _ => true

/-- `self._conf_url = f"{http_s}://{self._host.api.host}:{self._host.api.port}"`
with `http_s = "https" if self._host.api.use_https else "http"`. -/
def conf_url (h : ReolinkHost) : String :=
  (if h.api.use_https then "https" else "http")
    ++ "://" ++ h.api.host ++ ":" ++ Nat.repr h.api.port

/-- The `DeviceInfo` built in `ReolinkBaseCoordinatorEntity.__init__`. -/
def baseDeviceInfo (h : ReolinkHost) : DeviceInfo :=
  { identifiers := [(DOMAIN, h.unique_id)]
    connections := [(CONNECTION_NETWORK_MAC, h.api.mac_address)]
    name := h.api.nvr_name
    model := h.api.model
    manufacturer := h.api.manufacturer
    hw_version := some h.api.hardware_version
    sw_version := h.api.sw_version
    serial_number := some h.api.uid
    configuration_url := conf_url h }

/-- `self._attr_unique_id = f"{self._host.unique_id}_{self.entity_description.key}"`
(`ReolinkHostCoordinatorEntity.__init__`). -/
def hostUniqueId (h : ReolinkHost) (key : String) : String :=
  h.unique_id ++ "_" ++ key

/-- `self._attr_unique_id = f"{self._host.unique_id}_{channel}_{self.entity_description.key}"`
(`ReolinkChannelCoordinatorEntity.__init__`). -/
def channelUniqueId (h : ReolinkHost) (channel : Nat) (key : String) : String :=
  h.unique_id ++ "_" ++ Nat.repr channel ++ "_" ++ key

/-- The `DeviceInfo` held by a `ReolinkChannelCoordinatorEntity` after
`__init__`: `dev_ch` is folded to `0` for models in `DUAL_LENS_MODELS`
(the external library constant, passed here as `dualLensModels`), the
`DeviceInfo` is overridden only when `is_nvr`, otherwise the record from
`ReolinkBaseCoordinatorEntity.__init__` is kept. -/
def channelDeviceInfo (dualLensModels : List String) (h : ReolinkHost)
    (channel : Nat) : DeviceInfo :=
  let dev_ch := if h.api.model ∈ dualLensModels then 0 else channel
  if h.api.is_nvr then
    { identifiers := [(DOMAIN, h.unique_id ++ "_ch" ++ Nat.repr dev_ch)]
      via_device := some (DOMAIN, h.unique_id)
      name := h.api.camera_name dev_ch
      model := h.api.camera_model dev_ch
      manufacturer := h.api.manufacturer
      sw_version := h.api.camera_sw_version dev_ch
      configuration_url := conf_url h }
  else baseDeviceInfo h

/-- `ReolinkBaseCoordinatorEntity.available`: the session flag of the API
object AND `super().available`, i.e. the coordinator's own availability
judgment (`coordinator.last_update_success`), passed here as a boolean. -/
def available (h : ReolinkHost) (coordinatorAvailable : Bool) : Bool :=
  h.api.session_active && coordinatorAvailable

/-- A register/unregister call issued against the device handle
(`async_register_update_cmd` / `async_unregister_update_cmd`); `channel` is
`none` for the host-scoped overload. -/
inductive UpdateCmdCall where
  | register (cmd : String) (channel : Option Nat)
  | unregister (cmd : String) (channel : Option Nat)
deriving DecidableEq, Repr

/-- The `(cmd, channel)` argument pair of a call. -/
def UpdateCmdCall.args : UpdateCmdCall → String × Option Nat
  | .register k ch => (k, ch)
  | .unregister k ch => (k, ch)

/-- Whether a call is a register call. -/
def UpdateCmdCall.isRegisterCall : UpdateCmdCall → Bool
  | .register _ _ => true
  | .unregister _ _ => false

/-- Whether a call is an unregister call. -/
def UpdateCmdCall.isUnregisterCall : UpdateCmdCall → Bool
  | .register _ _ => false
  | .unregister _ _ => true

/-- Effect of one call on the reference count of the interest entry `a`
kept by the device handle. -/
def UpdateCmdCall.delta (c : UpdateCmdCall) (a : String × Option Nat) : Int :=
  match c with
  | .register k ch => if (k, ch) = a then 1 else 0
  | .unregister k ch => if (k, ch) = a then -1 else 0

/-- Net change of the reference count of interest entry `a` after a list of
calls, starting from an entry that was never registered. -/
def netChange (calls : List UpdateCmdCall) (a : String × Option Nat) : Int :=
  (calls.map (fun c => c.delta a)).sum

/-- An entity of the integration: host-scoped
(`ReolinkHostCoordinatorEntity`) or channel-scoped
(`ReolinkChannelCoordinatorEntity`, which subclasses the host entity). -/
inductive ReolinkEntity where
  | host (desc : ReolinkHostEntityDescription)
  | channel (desc : ReolinkChannelEntityDescription) (channel : Nat)

/-- `self.entity_description.cmd_key` of an entity. -/
def ReolinkEntity.cmdKey : ReolinkEntity → Option String
  | .host d => d.cmd_key
  | .channel d _ => d.cmd_key

/-- The channel scope an entity passes to register/unregister calls:
`none` for a host entity, `some channel` for a channel entity. -/
def ReolinkEntity.scope : ReolinkEntity → Option Nat
  | .host _ => none
  | .channel _ ch => some ch

/-- The register calls issued by `async_added_to_hass`, in order.
The host hook registers `cmd_key` host-scoped when it is not `None`.
The channel hook first awaits `super().async_added_to_hass()` (the host
hook, reading the same `entity_description`), then registers
`cmd_key` channel-scoped when it is not `None`. -/
def ReolinkEntity.async_added_to_hass : ReolinkEntity → List UpdateCmdCall
  | .host d =>
      match d.cmd_key with
      | none => []
      | some k => [.register k none]
  | .channel d ch =>
      (match d.cmd_key with
       | none => []
       | some k => [.register k none]) ++
      (match d.cmd_key with
       | none => []
       | some k => [.register k (some ch)])

/-- The unregister calls issued by `async_will_remove_from_hass`, in order.
The host hook unregisters `cmd_key` host-scoped when it is not `None`, then
awaits `super()`.  The channel hook unregisters `cmd_key` channel-scoped
when it is not `None`, then awaits `super().async_will_remove_from_hass()`
(the host hook). -/
def ReolinkEntity.async_will_remove_from_hass : ReolinkEntity → List UpdateCmdCall
  | .host d =>
      match d.cmd_key with
      | none => []
      | some k => [.unregister k none]
  | .channel d ch =>
      (match d.cmd_key with
       | none => []
       | some k => [.unregister k (some ch)]) ++
      (match d.cmd_key with
       | none => []
       | some k => [.unregister k none])

/-- A concrete API object used by witnesses and counterexamples. -/
def apiEx : ReolinkApi :=
  { use_https := true
    host := "192.0.2.1"
    port := 443
    mac_address := "aa:bb:cc:dd:ee:ff"
    nvr_name := "nvr"
    model := "RLN8-410"
    manufacturer := "Reolink"
    hardware_version := "IPC_1"
    sw_version := "v3.0"
    uid := "serial1"
    session_active := true
    is_nvr := true
    camera_name := fun _ => "cam"
    camera_model := fun _ => "E1-Zoom"
    camera_sw_version := fun _ => "v1.0" }

/-- A concrete host wrapper used by witnesses and counterexamples. -/
def hostEx : ReolinkHost := { api := apiEx, unique_id := "uid" }

/-- `hostEx` with the NVR flag cleared. -/
def hostExNotNvr : ReolinkHost :=
  { api := { apiEx with is_nvr := false }, unique_id := "uid" }

/-- `hostEx` with an inactive session. -/
def hostExNoSession : ReolinkHost :=
  { api := { apiEx with session_active := false }, unique_id := "uid" }

/-- C3: `available` is true iff the session flag and the coordinator's own
availability judgment are both true; it is false whenever either is false.
The embedding is a pure function of the two flags, so the check has no side
effects. -/
theorem C3_available_iff (h : ReolinkHost) (c : Bool) :
    (available h c = true ↔ h.api.session_active = true ∧ c = true) ∧
    (h.api.session_active = false → available h c = false) ∧
    (c = false → available h c = false) := by
  refine ⟨?_, ?_, ?_⟩
  · simp [available]
  · intro hs; simp [available, hs]
  · intro hc; simp [available, hc]

theorem C3_available_iff_witness :
    (available hostEx true = true ↔
      hostEx.api.session_active = true ∧ true = true) ∧
    available hostExNoSession true = false ∧
    available hostEx false = false :=
  ⟨(C3_available_iff hostEx true).1,
   (C3_available_iff hostExNoSession true).2.1 rfl,
   (C3_available_iff hostEx false).2.2 rfl⟩

/-- C5: for a model in the dual-lens set, the channel entity's device-identity
record equals the record derived for channel 0, whatever channel was
requested. -/
theorem C5_dual_lens_folds_to_channel_zero (dualLensModels : List String)
    (h : ReolinkHost) (channel : Nat)
    (hm : h.api.model ∈ dualLensModels) :
    channelDeviceInfo dualLensModels h channel =
      channelDeviceInfo dualLensModels h 0 := by
  simp [channelDeviceInfo, hm]

theorem C5_dual_lens_folds_to_channel_zero_witness :
    hostEx.api.model ∈ ["RLN8-410"] ∧
    channelDeviceInfo ["RLN8-410"] hostEx 7 =
      channelDeviceInfo ["RLN8-410"] hostEx 0 :=
  ⟨by simp [hostEx, apiEx],
   C5_dual_lens_folds_to_channel_zero ["RLN8-410"] hostEx 7
     (by simp [hostEx, apiEx])⟩

/-- C6: when the NVR flag is false, the channel entity's device-identity
record is exactly the host-level record built by the base class. -/
theorem C6_non_nvr_channel_identity_equals_host (dualLensModels : List String)
    (h : ReolinkHost) (channel : Nat) (hn : h.api.is_nvr = false) :
    channelDeviceInfo dualLensModels h channel = baseDeviceInfo h := by
  simp [channelDeviceInfo, hn]

theorem C6_non_nvr_channel_identity_equals_host_witness :
    hostExNotNvr.api.is_nvr = false ∧
    channelDeviceInfo [] hostExNotNvr 3 = baseDeviceInfo hostExNotNvr :=
  ⟨rfl, C6_non_nvr_channel_identity_equals_host [] hostExNotNvr 3 rfl⟩

/-- C8: an entity whose description has `cmd_key = None` issues no register
or unregister calls from either lifecycle hook, so the device handle's
subscription interest set is unchanged. -/
theorem C8_none_cmd_key_no_calls (e : ReolinkEntity) (hk : e.cmdKey = none) :
    e.async_added_to_hass = [] ∧ e.async_will_remove_from_hass = [] := by
  cases e with
  | host d =>
      simp [ReolinkEntity.cmdKey] at hk
      simp [ReolinkEntity.async_added_to_hass,
        ReolinkEntity.async_will_remove_from_hass, hk]
  | channel d ch =>
      simp [ReolinkEntity.cmdKey] at hk
      simp [ReolinkEntity.async_added_to_hass,
        ReolinkEntity.async_will_remove_from_hass, hk]

theorem C8_none_cmd_key_no_calls_witness :
    (ReolinkEntity.channel { key := "k" } 2).async_added_to_hass = [] ∧
    (ReolinkEntity.channel { key := "k" } 2).async_will_remove_from_hass = [] :=
  C8_none_cmd_key_no_calls (ReolinkEntity.channel { key := "k" } 2) rfl

/-- A channel entity description with a non-null command key, used by
counterexamples and witnesses. -/
def chanDescEx : ReolinkChannelEntityDescription :=
  { key := "k", cmd_key := some "cmd" }

/-- A host entity description with a non-null command key. -/
def hostDescEx : ReolinkHostEntityDescription :=
  { key := "k", cmd_key := some "cmd" }

/-- C1 counterexample: a channel entity with a non-null command key issues
TWO registration calls on attach — the host-scoped `register(key)` (from
`super().async_added_to_hass()`) and the channel-scoped
`register(key, channel)` — not exactly one. -/
theorem C1_counterexample :
    (ReolinkEntity.channel chanDescEx 1).async_added_to_hass =
      [.register "cmd" none, .register "cmd" (some 1)] ∧
    (ReolinkEntity.channel chanDescEx 1).async_added_to_hass.length ≠ 1 := by
  constructor
  · rfl
  · decide

/-- C1 amended: with a non-null command key, a host entity's attach hook
issues exactly the host-scoped `register(key)`; a channel entity's attach
hook issues the host-scoped `register(key)` (via `super()`) followed by the
channel-scoped `register(key, channel)` — two calls, not one. -/
theorem C1_amended_attach_registrations :
    (∀ (d : ReolinkHostEntityDescription) (k : String), d.cmd_key = some k →
      (ReolinkEntity.host d).async_added_to_hass =
        [.register k none]) ∧
    (∀ (d : ReolinkChannelEntityDescription) (ch : Nat) (k : String),
      d.cmd_key = some k →
      (ReolinkEntity.channel d ch).async_added_to_hass =
        [.register k none, .register k (some ch)]) := by
  constructor
  · intro d k hk
    simp [ReolinkEntity.async_added_to_hass, hk]
  · intro d ch k hk
    simp [ReolinkEntity.async_added_to_hass, hk]

theorem C1_amended_attach_registrations_witness :
    (ReolinkEntity.host hostDescEx).async_added_to_hass =
      [.register "cmd" none] ∧
    (ReolinkEntity.channel chanDescEx 2).async_added_to_hass =
      [.register "cmd" none, .register "cmd" (some 2)] :=
  ⟨C1_amended_attach_registrations.1 hostDescEx "cmd" rfl,
   C1_amended_attach_registrations.2 chanDescEx 2 "cmd" rfl⟩

/-- C2: over one attach-then-remove lifecycle, the unregister calls issued on
removal carry exactly the same multiset of `(cmd, channel)` argument pairs as
the register calls issued on attach — each unregister argument pair occurring
exactly as often as the corresponding register pair — with attach issuing
only register calls and removal only unregister calls. -/
theorem C2_unregister_pairs_register (e : ReolinkEntity) :
    (e.async_will_remove_from_hass.map UpdateCmdCall.args).Perm
      (e.async_added_to_hass.map UpdateCmdCall.args) ∧
    e.async_added_to_hass.all UpdateCmdCall.isRegisterCall = true ∧
    e.async_will_remove_from_hass.all UpdateCmdCall.isUnregisterCall = true ∧
    ∀ a : String × Option Nat,
      Multiset.count a ↑(e.async_will_remove_from_hass.map UpdateCmdCall.args) =
        Multiset.count a ↑(e.async_added_to_hass.map UpdateCmdCall.args) := by
  have hmain :
      (e.async_will_remove_from_hass.map UpdateCmdCall.args).Perm
        (e.async_added_to_hass.map UpdateCmdCall.args) ∧
      e.async_added_to_hass.all UpdateCmdCall.isRegisterCall = true ∧
      e.async_will_remove_from_hass.all UpdateCmdCall.isUnregisterCall = true := by
    cases e with
    | host d =>
        cases hk : d.cmd_key with
        | none =>
            simp [ReolinkEntity.async_added_to_hass,
              ReolinkEntity.async_will_remove_from_hass, hk]
        | some k =>
            simp [ReolinkEntity.async_added_to_hass,
              ReolinkEntity.async_will_remove_from_hass, hk,
              UpdateCmdCall.args, UpdateCmdCall.isRegisterCall,
              UpdateCmdCall.isUnregisterCall]
    | channel d ch =>
        cases hk : d.cmd_key with
        | none =>
            simp [ReolinkEntity.async_added_to_hass,
              ReolinkEntity.async_will_remove_from_hass, hk]
        | some k =>
            refine ⟨?_, ?_⟩
            · simp only [ReolinkEntity.async_added_to_hass,
                ReolinkEntity.async_will_remove_from_hass, hk,
                List.map, List.cons_append, List.nil_append,
                UpdateCmdCall.args]
              exact List.Perm.swap _ _ _
            · simp [ReolinkEntity.async_added_to_hass,
                ReolinkEntity.async_will_remove_from_hass, hk,
                UpdateCmdCall.isRegisterCall, UpdateCmdCall.isUnregisterCall]
  exact ⟨hmain.1, hmain.2.1, hmain.2.2,
    fun a => congrArg (Multiset.count a) (Multiset.coe_eq_coe.mpr hmain.1)⟩

/-- C10: the remove hook is stateless: its unregister calls are determined by
the descriptor's command key and the entity's channel scope alone, and when
the command key is non-null it issues the unregister even if the attach hook
was never invoked — starting from an interest entry that was never
registered, the net reference count after the remove hook alone is
negative. -/
theorem C10_remove_hook_stateless :
    (∀ e e' : ReolinkEntity, e.cmdKey = e'.cmdKey → e.scope = e'.scope →
      e.async_will_remove_from_hass = e'.async_will_remove_from_hass) ∧
    (∀ (e : ReolinkEntity) (k : String), e.cmdKey = some k →
      UpdateCmdCall.unregister k e.scope ∈ e.async_will_remove_from_hass ∧
      netChange e.async_will_remove_from_hass (k, e.scope) < 0) := by
  constructor
  · intro e e' hkey hscope
    cases e with
    | host d =>
        cases e' with
        | host d' =>
            simp [ReolinkEntity.cmdKey] at hkey
            simp [ReolinkEntity.async_will_remove_from_hass, hkey]
        | channel d' ch' =>
            simp [ReolinkEntity.scope] at hscope
    | channel d ch =>
        cases e' with
        | host d' =>
            simp [ReolinkEntity.scope] at hscope
        | channel d' ch' =>
            simp [ReolinkEntity.cmdKey] at hkey
            simp [ReolinkEntity.scope] at hscope
            simp [ReolinkEntity.async_will_remove_from_hass, hkey, hscope]
  · intro e k hk
    cases e with
    | host d =>
        simp [ReolinkEntity.cmdKey] at hk
        simp [ReolinkEntity.async_will_remove_from_hass, hk,
          ReolinkEntity.scope, netChange, UpdateCmdCall.delta]
    | channel d ch =>
        simp [ReolinkEntity.cmdKey] at hk
        simp [ReolinkEntity.async_will_remove_from_hass, hk,
          ReolinkEntity.scope, netChange, UpdateCmdCall.delta]

theorem C10_remove_hook_stateless_witness :
    UpdateCmdCall.unregister "cmd" (some 2) ∈
      (ReolinkEntity.channel chanDescEx 2).async_will_remove_from_hass ∧
    netChange (ReolinkEntity.channel chanDescEx 2).async_will_remove_from_hass
      ("cmd", some 2) < 0 :=
  C10_remove_hook_stateless.2 (ReolinkEntity.channel chanDescEx 2) "cmd" rfl

/-- MSB-first decimal digit characters of `n`: the functional core of
`Nat.toDigitsCore` (which implements the `{channel}` interpolation via
`Nat.repr`) with the fuel argument removed. -/
def natChars (n : Nat) : List Char :=
  if _h : n < 10 then [Nat.digitChar n]
  else natChars (n / 10) ++ [Nat.digitChar (n % 10)]
termination_by n
decreasing_by
  exact Nat.div_lt_self (by omega) (by omega)

theorem natChars_lt (n : Nat) (h : n < 10) : natChars n = [Nat.digitChar n] := by
  rw [natChars]
  simp [h]

theorem natChars_ge (n : Nat) (h : 10 ≤ n) :
    natChars n = natChars (n / 10) ++ [Nat.digitChar (n % 10)] := by
  rw [natChars]
  simp [Nat.not_lt.mpr h]

theorem toDigitsCore_ten_eq (fuel : Nat) :
    ∀ (n : Nat) (acc : List Char), n < fuel →
      Nat.toDigitsCore 10 fuel n acc = natChars n ++ acc := by
  induction fuel with
  | zero => intro n acc h; omega
  | succ f ih =>
      intro n acc h
      simp only [Nat.toDigitsCore]
      by_cases h0 : n / 10 = 0
      · have hlt : n < 10 := by omega
        rw [if_pos h0, natChars_lt n hlt, Nat.mod_eq_of_lt hlt]
        rfl
      · have h10 : 10 ≤ n := by
          rcases Nat.lt_or_ge n 10 with hl | hg
          · exact absurd (Nat.div_eq_of_lt hl) h0
          · exact hg
        have hdiv : n / 10 < f := by
          have h1 : n / 10 < n := Nat.div_lt_self (by omega) (by omega)
          omega
        rw [if_neg h0, ih (n / 10) _ hdiv, natChars_ge n h10]
        simp [List.append_assoc]

/-- `Nat.repr` produces exactly the `natChars` digit characters. -/
theorem repr_data_eq (n : Nat) : (Nat.repr n).data = natChars n := by
  show ((Nat.toDigits 10 n).asString).data = natChars n
  rw [Nat.toDigits, toDigitsCore_ten_eq (n + 1) n [] (Nat.lt_succ_self n)]
  simp [List.asString]

theorem digitVal_digitChar (m : Nat) (h : m < 10) :
    (Nat.digitChar m).toNat - 48 = m := by
  interval_cases m <;> rfl

theorem digitChar_ne_underscore (m : Nat) (h : m < 10) :
    Nat.digitChar m ≠ '_' := by
  interval_cases m <;> decide

theorem underscore_not_mem_natChars (n : Nat) : '_' ∉ natChars n := by
  induction n using Nat.strong_induction_on with
  | _ n ih =>
      by_cases h : n < 10
      · rw [natChars_lt n h]
        simp
        exact fun he => digitChar_ne_underscore n h he.symm
      · have h10 : 10 ≤ n := Nat.le_of_not_lt h
        rw [natChars_ge n h10]
        simp
        refine ⟨ih (n / 10) (Nat.div_lt_self (by omega) (by omega)), ?_⟩
        exact fun he =>
          digitChar_ne_underscore (n % 10) (Nat.mod_lt _ (by omega)) he.symm

theorem foldl_natChars (n : Nat) : ∀ a : Nat,
    (natChars n).foldl (fun acc c => acc * 10 + (c.toNat - 48)) a =
      a * 10 ^ (natChars n).length + n := by
  induction n using Nat.strong_induction_on with
  | _ n ih =>
      intro a
      by_cases h : n < 10
      · rw [natChars_lt n h]
        simp [digitVal_digitChar n h]
      · have h10 : 10 ≤ n := Nat.le_of_not_lt h
        rw [natChars_ge n h10, List.foldl_append, List.length_append,
          ih (n / 10) (Nat.div_lt_self (by omega) (by omega)) a]
        simp only [List.foldl_cons, List.foldl_nil, List.length_cons,
          List.length_nil, Nat.zero_add]
        rw [digitVal_digitChar (n % 10) (Nat.mod_lt _ (by omega))]
        calc (a * 10 ^ (natChars (n / 10)).length + n / 10) * 10 + n % 10
            = a * (10 ^ (natChars (n / 10)).length * 10) +
                (10 * (n / 10) + n % 10) := by ring
          _ = a * 10 ^ ((natChars (n / 10)).length + 1) + n := by
                rw [Nat.div_add_mod, pow_succ]

theorem natChars_injective (m n : Nat) (h : natChars m = natChars n) : m = n := by
  have hm := foldl_natChars m 0
  have hn := foldl_natChars n 0
  rw [h] at hm
  simp only [Nat.zero_mul, Nat.zero_add] at hm hn
  omega

/-- Decimal representations of distinct naturals are distinct strings. -/
theorem natRepr_injective (m n : Nat) (h : Nat.repr m = Nat.repr n) : m = n :=
  natChars_injective m n (by rw [← repr_data_eq, ← repr_data_eq, h])

theorem append_underscore_inj (a : List Char) :
    ∀ (b c d : List Char), '_' ∉ a → '_' ∉ c →
      a ++ '_' :: b = c ++ '_' :: d → a = c ∧ b = d := by
  induction a with
  | nil =>
      intro b c d _ hc h
      cases c with
      | nil => simpa using h
      | cons y ys =>
          simp only [List.nil_append, List.cons_append, List.cons.injEq] at h
          exact absurd (by rw [h.1]; exact List.mem_cons_self y ys) hc
  | cons x xs ih =>
      intro b c d ha hc h
      cases c with
      | nil =>
          simp only [List.cons_append, List.nil_append, List.cons.injEq] at h
          exact absurd (by rw [h.1]; exact List.mem_cons_self '_' xs) ha
      | cons y ys =>
          simp only [List.cons_append, List.cons.injEq] at h
          have hrec := ih b ys d (fun hm => ha (List.mem_cons_of_mem x hm))
            (fun hm => hc (List.mem_cons_of_mem y hm)) h.2
          exact ⟨by rw [h.1, hrec.1], hrec.2⟩

theorem underscore_data : "_".data = ['_'] := rfl

theorem hostUniqueId_data (h : ReolinkHost) (k : String) :
    (hostUniqueId h k).data = h.unique_id.data ++ '_' :: k.data := by
  simp [hostUniqueId, String.data_append, underscore_data]

theorem channelUniqueId_data (h : ReolinkHost) (c : Nat) (k : String) :
    (channelUniqueId h c k).data =
      h.unique_id.data ++ '_' :: (natChars c ++ '_' :: k.data) := by
  simp [channelUniqueId, String.data_append, underscore_data, repr_data_eq,
    List.append_assoc]

/-- The key is recoverable from a host-scoped unique id. -/
theorem hostUniqueId_inj (h : ReolinkHost) (k1 k2 : String)
    (heq : hostUniqueId h k1 = hostUniqueId h k2) : k1 = k2 := by
  have hd : (hostUniqueId h k1).data = (hostUniqueId h k2).data := by rw [heq]
  rw [hostUniqueId_data, hostUniqueId_data] at hd
  have h1 := List.append_cancel_left hd
  exact String.ext (by simpa using h1)

/-- The channel and the key are recoverable from a channel-scoped unique id,
because the decimal channel digits contain no underscore. -/
theorem channelUniqueId_inj (h : ReolinkHost) (c1 c2 : Nat) (k1 k2 : String)
    (heq : channelUniqueId h c1 k1 = channelUniqueId h c2 k2) :
    c1 = c2 ∧ k1 = k2 := by
  have hd : (channelUniqueId h c1 k1).data = (channelUniqueId h c2 k2).data := by
    rw [heq]
  rw [channelUniqueId_data, channelUniqueId_data] at hd
  have h1 := List.append_cancel_left hd
  have h2 : natChars c1 ++ '_' :: k1.data = natChars c2 ++ '_' :: k2.data := by
    simpa using h1
  have h3 := append_underscore_inj (natChars c1) k1.data (natChars c2) k2.data
    (underscore_not_mem_natChars c1) (underscore_not_mem_natChars c2) h2
  exact ⟨natChars_injective c1 c2 h3.1, String.ext h3.2⟩

/-- C4 counterexample: a host-scoped entity with descriptor key `"1_a"` and a
channel-scoped entity on channel 1 with descriptor key `"a"` have distinct
`(optional channel, key)` pairs but the same unique id `"uid_1_a"`. -/
theorem C4_counterexample :
    hostUniqueId hostEx "1_a" = channelUniqueId hostEx 1 "a" ∧
    ((none : Option Nat), "1_a") ≠ ((some 1 : Option Nat), "a") := by
  constructor
  · decide
  · decide

/-- C4 amended: the unique id is a deterministic (pure) function of the
device unique id, the optional channel and the descriptor key, and within one
scope kind it never collides: two host-scoped entities with distinct keys,
or two channel-scoped entities with distinct `(channel, key)` pairs, always
get distinct unique ids.  Across the two kinds a collision is possible
(exactly when the host key is the decimal channel followed by an underscore
and the channel key). -/
theorem C4_amended_unique_ids :
    (∀ (h : ReolinkHost) (k1 k2 : String), k1 ≠ k2 →
      hostUniqueId h k1 ≠ hostUniqueId h k2) ∧
    (∀ (h : ReolinkHost) (c1 c2 : Nat) (k1 k2 : String),
      (c1, k1) ≠ (c2, k2) →
      channelUniqueId h c1 k1 ≠ channelUniqueId h c2 k2) := by
  constructor
  · intro h k1 k2 hne heq
    exact hne (hostUniqueId_inj h k1 k2 heq)
  · intro h c1 c2 k1 k2 hne heq
    have hck := channelUniqueId_inj h c1 c2 k1 k2 heq
    exact hne (by rw [hck.1, hck.2])

theorem C4_amended_unique_ids_witness :
    hostUniqueId hostEx "a" ≠ hostUniqueId hostEx "b" ∧
    channelUniqueId hostEx 1 "a" ≠ channelUniqueId hostEx 2 "a" :=
  ⟨C4_amended_unique_ids.1 hostEx "a" "b" (by decide),
   C4_amended_unique_ids.2 hostEx 1 2 "a" "a" (by decide)⟩

/-- C9: dual-lens folding touches only the device-identity record: the unique
id embeds the raw requested channel, the channel-scoped register/unregister
calls pass the raw requested channel, and two lenses (distinct channels) of a
dual-lens camera get distinct unique ids and distinct channel-scoped
registrations while their device-identity records coincide. -/
theorem C9_dual_lens_raw_channel (dualLensModels : List String)
    (h : ReolinkHost) (d : ReolinkChannelEntityDescription)
    (ch ch2 : Nat) (k : String) (hm : h.api.model ∈ dualLensModels) :
    channelUniqueId h ch d.key =
      h.unique_id ++ "_" ++ Nat.repr ch ++ "_" ++ d.key ∧
    (d.cmd_key = some k →
      (ReolinkEntity.channel d ch).async_added_to_hass =
        [.register k none, .register k (some ch)] ∧
      (ReolinkEntity.channel d ch).async_will_remove_from_hass =
        [.unregister k (some ch), .unregister k none]) ∧
    (ch ≠ ch2 →
      channelUniqueId h ch d.key ≠ channelUniqueId h ch2 d.key ∧
      UpdateCmdCall.register k (some ch) ≠ UpdateCmdCall.register k (some ch2) ∧
      channelDeviceInfo dualLensModels h ch =
        channelDeviceInfo dualLensModels h ch2) := by
  refine ⟨rfl, ?_, ?_⟩
  · intro hk
    constructor
    · simp [ReolinkEntity.async_added_to_hass, hk]
    · simp [ReolinkEntity.async_will_remove_from_hass, hk]
  · intro hne
    refine ⟨?_, ?_, ?_⟩
    · intro heq
      exact hne (channelUniqueId_inj h ch ch2 d.key d.key heq).1
    · intro heq
      injection heq with h1 h2
      exact hne (Option.some.inj h2)
    · simp [channelDeviceInfo, hm]

theorem C9_dual_lens_raw_channel_witness :
    channelUniqueId hostEx 0 "k" ≠ channelUniqueId hostEx 1 "k" ∧
    channelDeviceInfo ["RLN8-410"] hostEx 0 =
      channelDeviceInfo ["RLN8-410"] hostEx 1 :=
  ⟨((C9_dual_lens_raw_channel ["RLN8-410"] hostEx chanDescEx 0 1 "cmd"
      (by decide)).2.2 (by decide)).1,
   ((C9_dual_lens_raw_channel ["RLN8-410"] hostEx chanDescEx 0 1 "cmd"
      (by decide)).2.2 (by decide)).2.2⟩

/-- C7 counterexample: on an NVR (`is_nvr = true`) the channel entity's
device-identity record carries no MAC connection descriptor, no hardware
version and no serial — three of the fields the claim requires in channel
mode. -/
theorem C7_counterexample :
    hostEx.api.is_nvr = true ∧
    (channelDeviceInfo [] hostEx 1).connections = [] ∧
    (channelDeviceInfo [] hostEx 1).hw_version = none ∧
    (channelDeviceInfo [] hostEx 1).serial_number = none := by
  refine ⟨rfl, ?_, ?_, ?_⟩ <;> rfl

/-- C7 amended: the host-mode record contains a stable identifier, the MAC
connection, name, model, manufacturer, hardware version, firmware version,
serial, and a configuration URL `scheme://host:port` with scheme `https`
exactly when the protocol flag is set.  A channel-mode record on a non-NVR
device equals the host record (so likewise); a channel-mode record on an NVR
contains a stable identifier, name, model, manufacturer, firmware version and
the same configuration URL, but omits the MAC connection, the hardware
version and the serial. -/
theorem C7_amended_identity_fields (h : ReolinkHost) (ch : Nat)
    (dualLensModels : List String) :
    ((baseDeviceInfo h).identifiers = [(DOMAIN, h.unique_id)] ∧
     (baseDeviceInfo h).connections =
       [(CONNECTION_NETWORK_MAC, h.api.mac_address)] ∧
     (baseDeviceInfo h).name = h.api.nvr_name ∧
     (baseDeviceInfo h).model = h.api.model ∧
     (baseDeviceInfo h).manufacturer = h.api.manufacturer ∧
     (baseDeviceInfo h).hw_version = some h.api.hardware_version ∧
     (baseDeviceInfo h).sw_version = h.api.sw_version ∧
     (baseDeviceInfo h).serial_number = some h.api.uid ∧
     (baseDeviceInfo h).configuration_url =
       (if h.api.use_https then "https" else "http")
         ++ "://" ++ h.api.host ++ ":" ++ Nat.repr h.api.port) ∧
    (h.api.is_nvr = false →
      channelDeviceInfo dualLensModels h ch = baseDeviceInfo h) ∧
    (h.api.is_nvr = true →
      (channelDeviceInfo dualLensModels h ch).identifiers ≠ [] ∧
      (channelDeviceInfo dualLensModels h ch).manufacturer =
        h.api.manufacturer ∧
      (channelDeviceInfo dualLensModels h ch).configuration_url =
        (if h.api.use_https then "https" else "http")
          ++ "://" ++ h.api.host ++ ":" ++ Nat.repr h.api.port ∧
      (channelDeviceInfo dualLensModels h ch).connections = [] ∧
      (channelDeviceInfo dualLensModels h ch).hw_version = none ∧
      (channelDeviceInfo dualLensModels h ch).serial_number = none) := by
  refine ⟨?_, ?_, ?_⟩
  · exact ⟨rfl, rfl, rfl, rfl, rfl, rfl, rfl, rfl, rfl⟩
  · intro hn
    simp [channelDeviceInfo, hn]
  · intro hn
    refine ⟨?_, ?_, ?_, ?_, ?_, ?_⟩ <;>
      simp [channelDeviceInfo, hn, conf_url]

theorem C7_amended_identity_fields_witness :
    (baseDeviceInfo hostEx).connections =
      [(CONNECTION_NETWORK_MAC, hostEx.api.mac_address)] ∧
    channelDeviceInfo [] hostExNotNvr 1 = baseDeviceInfo hostExNotNvr ∧
    (channelDeviceInfo [] hostEx 1).connections = [] :=
  ⟨(C7_amended_identity_fields hostEx 1 []).1.2.1,
   (C7_amended_identity_fields hostExNotNvr 1 []).2.1 rfl,
   ((C7_amended_identity_fields hostEx 1 []).2.2 rfl).2.2.2.1⟩
